import Mathlib

/-!
Verification of the health-check component of the stock-analysis repository.

The development shallowly embeds the two Python modules that implement the
component:

* `src/shared/health_check.py` — the generic `HealthChecker` class
  (namespace `HealthCheck` below);
* `src/services/intelligent-core-service/health.py` — the per-service
  variant with stubbed dependency checks (namespace `ICS` below).

Modelling conventions:

* Timestamps are integers (abstract clock readings); `datetime.utcnow()`
  becomes the `now` field of a `World` value passed to each operation.
* The outcome of each real network connection attempt (psycopg2 / redis /
  pika) is abstracted into the `World`: a `Conn` value that is `.ok` when
  the connection attempt succeeds and `.err e` when the underlying
  library raises an exception `e`.  The `try/except` blocks of the Python
  probes become `match` on that outcome.
* Python dicts that are serialised to JSON keep their insertion order, so
  the `checks` dict of the readiness body is embedded as an association
  list `List (String × Bool)`.
* `os.getenv` becomes a function `Env := String → Option String`; Python
  `int(...)` on a string becomes `pyInt?`, which fails (models the raised
  `ValueError`) exactly when the trimmed string is not an optionally
  signed run of decimal digits.
* Request handlers are embedded as functions returning a pair
  (post-state, response) so that claims about state (non-)mutation are
  statable; the Python handler bodies contain no assignment to checker
  state, and `startup_event` assigns `is_ready = True`, which the
  embedding mirrors.
-/

namespace HealthCheck

/-- Environment variables: `os.getenv` returns `none` when unset. -/
def Env : Type := String → Option String

/-- Python `int(s)` on a string, as used for port parsing: strips
whitespace, accepts an optional single sign followed by a nonempty run of
decimal digits, and raises `ValueError` (here: `none`) otherwise.
Implemented over the character list so that it evaluates by reduction. -/
def pyInt? (s : String) : Option Int :=
  let cs := ((s.toList.dropWhile Char.isWhitespace).reverse.dropWhile
      Char.isWhitespace).reverse
  let core :=
    match cs with
    | c :: rest => if c = '-' ∨ c = '+' then rest else cs
    | [] => []
  if core ≠ [] ∧ core.all Char.isDigit then
    let n : Nat := core.foldl (fun acc c => 10 * acc + (c.toNat - 48)) 0
    some
      (match cs with
       | c :: _ => if c = '-' then - (n : Int) else (n : Int)
       | [] => (n : Int))
  else none

/-- Model of `int(os.getenv(key, default))` where the default is already an
integer literal in the source: absent variable yields the default,
present variable must parse. -/
def getenvInt (env : Env) (key : String) (dflt : Int) : Option Int :=
  match env key with
  | none => some dflt
  | some s => pyInt? s

/-- Model of `os.getenv(key, default)` for string-valued settings. -/
def getenvStr (env : Env) (key dflt : String) : String :=
  (env key).getD dflt

/-- Model of `self.postgres_config` of `HealthChecker.__init__`. -/
structure PostgresConfig where
  host : String
  port : Int
  database : String
  user : String
  password : String
  deriving Repr, DecidableEq

/-- Model of `self.redis_config` of `HealthChecker.__init__`. -/
structure RedisConfig where
  host : String
  port : Int
  decode_responses : Bool
  deriving Repr, DecidableEq

/-- Model of `self.rabbitmq_config` of `HealthChecker.__init__`. -/
structure RabbitmqConfig where
  host : String
  port : Int
  virtual_host : String
  username : String
  password : String
  deriving Repr, DecidableEq

/-- The state of a `HealthChecker` instance (`src/shared/health_check.py`,
`HealthChecker.__init__`). -/
structure HealthChecker where
  service_name : String
  service_version : String
  service_port : Int
  startup_time : Int
  is_ready : Bool
  postgres_config : PostgresConfig
  redis_config : RedisConfig
  rabbitmq_config : RabbitmqConfig
  deriving Repr, DecidableEq

/-- Embedding of `HealthChecker.__init__(service_name, service_version)`: reads the
environment, parses the four port variables with `int(...)`, and starts
with `is_ready = False`.  Returns `none` when any port fails to parse
(the constructor raises). -/
def HealthChecker.init (service_name : String)
    (service_version : String) (env : Env) (now : Int) :
    Option HealthChecker := do
  let service_port ← getenvInt env "SERVICE_PORT" 8000
  let pg_port ← getenvInt env "POSTGRES_PORT" 5432
  let redis_port ← getenvInt env "REDIS_PORT" 6379
  let rabbit_port ← getenvInt env "RABBITMQ_PORT" 5672
  pure
    { service_name := service_name
      service_version := service_version
      service_port := service_port
      startup_time := now
      is_ready := false
      postgres_config :=
        { host := getenvStr env "POSTGRES_HOST" "localhost"
          port := pg_port
          database := getenvStr env "POSTGRES_DB" "aktienanalyse_event_store"
          user := getenvStr env "POSTGRES_USER" "stock_analysis"
          password := getenvStr env "POSTGRES_PASSWORD" "secure_password" }
      redis_config :=
        { host := getenvStr env "REDIS_HOST" "localhost"
          port := redis_port
          decode_responses := true }
      rabbitmq_config :=
        { host := getenvStr env "RABBITMQ_HOST" "localhost"
          port := rabbit_port
          virtual_host := getenvStr env "RABBITMQ_VHOST" "/"
          username := getenvStr env "RABBITMQ_USER" "stock_analysis"
          password := getenvStr env "RABBITMQ_PASSWORD" "stock_password" } }

/-- Snapshot of `psutil` readings used by `get_system_metrics`; the values
come from the outside world. -/
structure SystemMetrics where
  cpu_percent : Int
  memory_percent : Int
  memory_mb : Int
  disk_percent : Int
  pid : Int
  threads : Int
  deriving Repr, DecidableEq

/-- Outcome of one real network connection attempt: `.err e` models the
underlying client library raising exception `e`. -/
inductive Conn where
  | ok
  | err (e : String)
  deriving Repr, DecidableEq

/-- The outside world observed during one request: the current clock and
the outcome of each dependency connection attempt. -/
structure World where
  now : Int
  db_conn : Conn
  redis_conn : Conn
  rabbitmq_conn : Conn
  metrics : SystemMetrics
  node_env : Option String
  deriving Repr, DecidableEq

/-- Embedding of `HealthChecker.check_database`: `try: connect; ...; return True
except Exception: return False`. -/
def HealthChecker.check_database (_hc : HealthChecker) (w : World) : Bool :=
  match w.db_conn with
  | .ok => true
  | .err _ => false

/-- Embedding of `HealthChecker.check_redis`: `try: Redis(...).ping(); return True
except Exception: return False`. -/
def HealthChecker.check_redis (_hc : HealthChecker) (w : World) : Bool :=
  match w.redis_conn with
  | .ok => true
  | .err _ => false

/-- Embedding of `HealthChecker.check_rabbitmq`: `try: BlockingConnection(...).close();
return True except Exception: return False`. -/
def HealthChecker.check_rabbitmq (_hc : HealthChecker) (w : World) : Bool :=
  match w.rabbitmq_conn with
  | .ok => true
  | .err _ => false

/-- Embedding of `HealthChecker.get_system_metrics`: a point-in-time snapshot of the
psutil readings. -/
def HealthChecker.get_system_metrics (_hc : HealthChecker) (w : World) :
    SystemMetrics := w.metrics

/-- The `details` sub-object of the `/health` body. -/
structure HealthDetails where
  ready : Bool
  port : Int
  environment : String
  deriving Repr, DecidableEq

/-- The JSON body returned by `HealthChecker.get_health_status`. -/
structure HealthStatus where
  status : String
  service : String
  version : String
  timestamp : Int
  uptime_seconds : Int
  metrics : SystemMetrics
  details : HealthDetails
  deriving Repr, DecidableEq

/-- Embedding of `HealthChecker.get_health_status`. -/
def HealthChecker.get_health_status (hc : HealthChecker) (w : World) :
    HealthStatus :=
  { status := if hc.is_ready then "healthy" else "starting"
    service := hc.service_name
    version := hc.service_version
    timestamp := w.now
    uptime_seconds := w.now - hc.startup_time
    metrics := hc.get_system_metrics w
    details :=
      { ready := hc.is_ready
        port := hc.service_port
        environment := w.node_env.getD "development" } }

/-- The JSON body returned by `HealthChecker.get_readiness_status`; the
`checks` dict is kept in insertion order as an association list. -/
structure ReadinessStatus where
  ready : Bool
  service : String
  checks : List (String × Bool)
  timestamp : Int
  deriving Repr, DecidableEq

/-- Embedding of `HealthChecker.get_readiness_status`: builds the four-entry `checks`
dict and takes `all(checks.values())`. -/
def HealthChecker.get_readiness_status (hc : HealthChecker) (w : World) :
    ReadinessStatus :=
  let checks : List (String × Bool) :=
    [("service", hc.is_ready),
     ("database", hc.check_database w),
     ("redis", hc.check_redis w),
     ("rabbitmq", hc.check_rabbitmq w)]
  { ready := checks.all (fun kv => kv.2)
    service := hc.service_name
    checks := checks
    timestamp := w.now }

/-- An HTTP response with a JSON body of type `α`. -/
structure HttpResponse (α : Type) where
  status_code : Nat
  body : α
  deriving Repr, DecidableEq

/-- Embedding of `startup_event` (the startup hook): sleeps then
sets `self.is_ready = True`. -/
def startup_event (hc : HealthChecker) : HealthChecker :=
  { hc with is_ready := true }

/-- Embedding of the `GET /health` handler (`health_check` in `create_health_app`).
Returns the post-request checker state together with the response; the
handler body mutates nothing. -/
def health_check (hc : HealthChecker) (w : World) :
    HealthChecker × HttpResponse HealthStatus :=
  (hc,
   { status_code := if hc.is_ready then 200 else 503
     body := hc.get_health_status w })

/-- The JSON body returned by the liveness probe. -/
structure LivenessBody where
  status : String
  service : String
  timestamp : Int
  deriving Repr, DecidableEq

/-- Embedding of the `GET /health/live` handler (`liveness_check`): returns a plain dict,
which FastAPI serves with status 200. -/
def liveness_check (hc : HealthChecker) (w : World) :
    HealthChecker × HttpResponse LivenessBody :=
  (hc,
   { status_code := 200
     body :=
      { status := "alive"
        service := hc.service_name
        timestamp := w.now } })

/-- Embedding of the `GET /health/ready` handler (`readiness_check`): status 200 when
`status_data["ready"]`, else 503. -/
def readiness_check (hc : HealthChecker) (w : World) :
    HealthChecker × HttpResponse ReadinessStatus :=
  let status_data := hc.get_readiness_status w
  (hc,
   { status_code := if status_data.ready then 200 else 503
     body := status_data })

/-- The JSON body returned by `GET /`. -/
structure RootBody where
  service : String
  version : String
  health_endpoint : String
  liveness_endpoint : String
  readiness_endpoint : String
  api_docs : String
  deriving Repr, DecidableEq

/-- Embedding of the `GET /` handler (`root`): static service metadata. -/
def root (hc : HealthChecker) (_w : World) :
    HealthChecker × HttpResponse RootBody :=
  (hc,
   { status_code := 200
     body :=
      { service := hc.service_name
        version := hc.service_version
        health_endpoint := "/health"
        liveness_endpoint := "/health/live"
        readiness_endpoint := "/health/ready"
        api_docs := "/docs" } })

/-- The four request handlers registered by `create_health_app`. -/
inductive Op where
  | health
  | live
  | ready
  | rootOp
  deriving Repr, DecidableEq

/-- Run one request handler, keeping only the resulting checker state. -/
def runOp (hc : HealthChecker) (op : Op) (w : World) : HealthChecker :=
  match op with
  | .health => (health_check hc w).1
  | .live => (liveness_check hc w).1
  | .ready => (readiness_check hc w).1
  | .rootOp => (root hc w).1

/-- Run a sequence of request handlers, each against its own world. -/
def runOps (hc : HealthChecker) : List (Op × World) → HealthChecker
  | [] => hc
  | (op, w) :: rest => runOps (runOp hc op w) rest

end HealthCheck

namespace ICS

/-!
Embedding of `src/services/intelligent-core-service/health.py`.  Module
state is the global `is_ready` flag plus the immutable `startup_time`;
`SERVICE_NAME` and `SERVICE_VERSION` are module constants.  The three
dependency check functions are `TODO` stubs that consult nothing and
return `True`; to make that statable they are given the full `World`
(clock and connection outcomes) and ignore it, mirroring that the Python
bodies read no state.
-/

/-- The `SERVICE_NAME` module constant. -/
def SERVICE_NAME : String := "intelligent-core-service"

/-- The `SERVICE_VERSION` module constant. -/
def SERVICE_VERSION : String := "1.0.0"

/-- Embedding of `check_database_connection`: `# TODO ...; return True`. -/
def check_database_connection (_w : HealthCheck.World) : Bool := true

/-- Embedding of `check_redis_connection`: `# TODO ...; return True`. -/
def check_redis_connection (_w : HealthCheck.World) : Bool := true

/-- Embedding of `check_rabbitmq_connection`: `# TODO ...; return True`. -/
def check_rabbitmq_connection (_w : HealthCheck.World) : Bool := true

/-- The mutable module state: `startup_time` (set at import) and the
global `is_ready` flag (initially `False`). -/
structure ModState where
  startup_time : Int
  is_ready : Bool
  deriving Repr, DecidableEq

/-- Module initialisation: `startup_time = datetime.utcnow()`,
`is_ready = False`. -/
def ModState.init (now : Int) : ModState :=
  { startup_time := now, is_ready := false }

/-- Embedding of `startup_event`: `global is_ready; ...; is_ready = True`. -/
def startup_event (s : ModState) : ModState :=
  { s with is_ready := true }

/-- The `details` sub-object of this service's `/health` body. -/
structure HealthDetails where
  ready : Bool
  cpu_percent : Int
  memory_percent : Int
  pid : Int
  deriving Repr, DecidableEq

/-- The JSON body of this service's `/health`. -/
structure HealthStatus where
  status : String
  service : String
  version : String
  timestamp : Int
  uptime_seconds : Int
  details : HealthDetails
  deriving Repr, DecidableEq

/-- Embedding of the `GET /health` handler (`health_check`). -/
def health_check (s : ModState) (w : HealthCheck.World) :
    ModState × HealthCheck.HttpResponse HealthStatus :=
  (s,
   { status_code := if s.is_ready then 200 else 503
     body :=
      { status := if s.is_ready then "healthy" else "starting"
        service := SERVICE_NAME
        version := SERVICE_VERSION
        timestamp := w.now
        uptime_seconds := w.now - s.startup_time
        details :=
          { ready := s.is_ready
            cpu_percent := w.metrics.cpu_percent
            memory_percent := w.metrics.memory_percent
            pid := w.metrics.pid } } })

/-- Embedding of the `GET /health/live` handler (`liveness_check`): plain dict, served
with status 200. -/
def liveness_check (s : ModState) (w : HealthCheck.World) :
    ModState × HealthCheck.HttpResponse HealthCheck.LivenessBody :=
  (s,
   { status_code := 200
     body :=
      { status := "alive"
        service := SERVICE_NAME
        timestamp := w.now } })

/-- Embedding of the `GET /health/ready` handler (`readiness_check`): three-entry `checks`
dict (no `service` key here) and `all(checks.values()) and is_ready`. -/
def readiness_check (s : ModState) (w : HealthCheck.World) :
    ModState × HealthCheck.HttpResponse HealthCheck.ReadinessStatus :=
  let checks : List (String × Bool) :=
    [("database", check_database_connection w),
     ("redis", check_redis_connection w),
     ("rabbitmq", check_rabbitmq_connection w)]
  let all_ready := checks.all (fun kv => kv.2) && s.is_ready
  (s,
   { status_code := if all_ready then 200 else 503
     body :=
      { ready := all_ready
        service := SERVICE_NAME
        checks := checks
        timestamp := w.now } })

end ICS

namespace HealthCheck

/-- An environment with no variables set. -/
def emptyEnv : Env := fun _ => none

/-- An environment with exactly one variable set. -/
def envWith (key val : String) : Env :=
  fun k => if k = key then some val else none

/-- A fixed metrics snapshot used for concrete scenarios. -/
def sampleMetrics : SystemMetrics :=
  { cpu_percent := 5, memory_percent := 40, memory_mb := 512
    disk_percent := 20, pid := 1234, threads := 8 }

/-- A world where all three dependencies are reachable. -/
def allOkWorld : World :=
  { now := 10, db_conn := .ok, redis_conn := .ok, rabbitmq_conn := .ok
    metrics := sampleMetrics, node_env := none }

/-- A world where only the RabbitMQ connection attempt raises. -/
def brokerDownWorld : World :=
  { now := 42, db_conn := .ok, redis_conn := .ok
    rabbitmq_conn := .err "AMQPConnectionError", metrics := sampleMetrics
    node_env := none }

/-- The checker constructed with an empty environment at time 0. -/
def defaultHC : HealthChecker :=
  { service_name := "svc"
    service_version := "1.0.0"
    service_port := 8000
    startup_time := 0
    is_ready := false
    postgres_config :=
      { host := "localhost", port := 5432
        database := "aktienanalyse_event_store", user := "stock_analysis"
        password := "secure_password" }
    redis_config := { host := "localhost", port := 6379, decode_responses := true }
    rabbitmq_config :=
      { host := "localhost", port := 5672, virtual_host := "/"
        username := "stock_analysis", password := "stock_password" } }

/-- Every request handler leaves the checker state unchanged. -/
theorem runOp_eq (hc : HealthChecker) (op : Op) (w : World) :
    runOp hc op w = hc := by
  cases op <;> rfl

/-- A sequence of request handlers leaves the checker state unchanged. -/
theorem runOps_eq (hc : HealthChecker) (ops : List (Op × World)) :
    runOps hc ops = hc := by
  induction ops generalizing hc with
  | nil => rfl
  | cons p rest ih => cases p with
    | mk op w => simpa [runOps, runOp_eq] using ih (runOp hc op w)

/-- A successfully constructed checker starts with `is_ready = false`. -/
theorem init_is_ready_false (name ver : String) (env : Env) (now : Int)
    (hc : HealthChecker) (h : HealthChecker.init name ver env now = some hc) :
    hc.is_ready = false := by
  unfold HealthChecker.init at h
  cases h1 : getenvInt env "SERVICE_PORT" 8000 <;>
    cases h2 : getenvInt env "POSTGRES_PORT" 5432 <;>
      cases h3 : getenvInt env "REDIS_PORT" 6379 <;>
        cases h4 : getenvInt env "RABBITMQ_PORT" 5672 <;>
          simp [h1, h2, h3, h4] at h <;>
            simp [← h]

end HealthCheck

/-- C1: for every state of the `HealthChecker` and every world, the
readiness operation returns `ready = false` iff at least one of the four
checks (service = `is_ready`, database, cache/redis, broker/rabbitmq) is
`false`, `ready = true` iff all four are `true`, and the HTTP status code
is 200 exactly when `ready` is true and 503 otherwise. -/
theorem readiness_ready_iff_checks (hc : HealthCheck.HealthChecker)
    (w : HealthCheck.World) :
    (((HealthCheck.readiness_check hc w).2.body.ready = true) ↔
      (hc.is_ready = true ∧ hc.check_database w = true ∧
       hc.check_redis w = true ∧ hc.check_rabbitmq w = true)) ∧
    (((HealthCheck.readiness_check hc w).2.body.ready = false) ↔
      (hc.is_ready = false ∨ hc.check_database w = false ∨
       hc.check_redis w = false ∨ hc.check_rabbitmq w = false)) ∧
    (((HealthCheck.readiness_check hc w).2.status_code = 200) ↔
      (HealthCheck.readiness_check hc w).2.body.ready = true) ∧
    (((HealthCheck.readiness_check hc w).2.status_code = 503) ↔
      (HealthCheck.readiness_check hc w).2.body.ready = false) := by
  cases hdb : w.db_conn <;> cases hr : w.redis_conn <;>
    cases hq : w.rabbitmq_conn <;> cases hs : hc.is_ready <;>
      simp [HealthCheck.readiness_check,
        HealthCheck.HealthChecker.get_readiness_status,
        HealthCheck.HealthChecker.check_database,
        HealthCheck.HealthChecker.check_redis,
        HealthCheck.HealthChecker.check_rabbitmq, hdb, hr, hq, hs]

/-- C2: `GET /health` returns status code 200 with body `status =
"healthy"` when `is_ready` is true and 503 with `status = "starting"`
when it is false; both equalities reduce the result to an expression in
`is_ready` alone, so no other status value or code is possible and no
other state influences the status code. -/
theorem health_status_determined_by_is_ready
    (hc : HealthCheck.HealthChecker) (w : HealthCheck.World) :
    ((HealthCheck.health_check hc w).2.status_code =
      if hc.is_ready then 200 else 503) ∧
    ((HealthCheck.health_check hc w).2.body.status =
      if hc.is_ready then "healthy" else "starting") ∧
    (((HealthCheck.health_check hc w).2.status_code = 200) ↔
      hc.is_ready = true) ∧
    (((HealthCheck.health_check hc w).2.status_code = 503) ↔
      hc.is_ready = false) ∧
    (((HealthCheck.health_check hc w).2.body.status = "healthy") ↔
      hc.is_ready = true) ∧
    (((HealthCheck.health_check hc w).2.body.status = "starting") ↔
      hc.is_ready = false) := by
  cases hs : hc.is_ready <;>
    simp [HealthCheck.health_check,
      HealthCheck.HealthChecker.get_health_status, hs]

/-- C3: `is_ready` is `false` on any successful construction, set to
`true` by the startup event, and no request handler (health, liveness,
readiness, root) ever resets it, so after startup every sequence of
handler invocations leaves it `true` and every `GET /health` answers 200
with `status = "healthy"`. -/
theorem is_ready_monotonic (name ver : String) (env : HealthCheck.Env)
    (now : Int) (hc0 hc : HealthCheck.HealthChecker)
    (hinit : HealthCheck.HealthChecker.init name ver env now = some hc0)
    (ops : List (HealthCheck.Op × HealthCheck.World))
    (w : HealthCheck.World) :
    hc0.is_ready = false ∧
    (HealthCheck.startup_event hc).is_ready = true ∧
    (HealthCheck.runOps (HealthCheck.startup_event hc) ops).is_ready
      = true ∧
    (HealthCheck.health_check
        (HealthCheck.runOps (HealthCheck.startup_event hc) ops)
        w).2.status_code = 200 ∧
    (HealthCheck.health_check
        (HealthCheck.runOps (HealthCheck.startup_event hc) ops)
        w).2.body.status = "healthy" := by
  refine ⟨HealthCheck.init_is_ready_false name ver env now hc0 hinit,
    rfl, ?_, ?_, ?_⟩ <;>
    simp [HealthCheck.runOps_eq, HealthCheck.health_check,
      HealthCheck.HealthChecker.get_health_status,
      HealthCheck.startup_event]

/-- Witness for C3 at a concrete construction, a concrete two-request
history and a concrete world. -/
theorem is_ready_monotonic_witness :
    HealthCheck.defaultHC.is_ready = false ∧
    (HealthCheck.startup_event HealthCheck.defaultHC).is_ready = true ∧
    (HealthCheck.runOps (HealthCheck.startup_event HealthCheck.defaultHC)
        [(HealthCheck.Op.ready, HealthCheck.brokerDownWorld),
         (HealthCheck.Op.health, HealthCheck.allOkWorld)]).is_ready
      = true ∧
    (HealthCheck.health_check
        (HealthCheck.runOps (HealthCheck.startup_event HealthCheck.defaultHC)
          [(HealthCheck.Op.ready, HealthCheck.brokerDownWorld),
           (HealthCheck.Op.health, HealthCheck.allOkWorld)])
        HealthCheck.allOkWorld).2.status_code = 200 ∧
    (HealthCheck.health_check
        (HealthCheck.runOps (HealthCheck.startup_event HealthCheck.defaultHC)
          [(HealthCheck.Op.ready, HealthCheck.brokerDownWorld),
           (HealthCheck.Op.health, HealthCheck.allOkWorld)])
        HealthCheck.allOkWorld).2.body.status = "healthy" :=
  is_ready_monotonic "svc" "1.0.0" HealthCheck.emptyEnv 0
    HealthCheck.defaultHC HealthCheck.defaultHC rfl
    [(HealthCheck.Op.ready, HealthCheck.brokerDownWorld),
     (HealthCheck.Op.health, HealthCheck.allOkWorld)]
    HealthCheck.allOkWorld

/-- C4: each dependency probe returns `false` whenever the underlying
connection attempt raises (for any exception), `true` when it succeeds —
never propagating an error — and the readiness response is always
well-formed: its `checks` dict always carries the four keys in order and
its status code is always 200 or 503. -/
theorem dependency_probe_total (hc : HealthCheck.HealthChecker)
    (w : HealthCheck.World) (e : String) :
    hc.check_database { w with db_conn := HealthCheck.Conn.err e } = false ∧
    hc.check_redis { w with redis_conn := HealthCheck.Conn.err e } = false ∧
    hc.check_rabbitmq { w with rabbitmq_conn := HealthCheck.Conn.err e }
      = false ∧
    hc.check_database { w with db_conn := HealthCheck.Conn.ok } = true ∧
    hc.check_redis { w with redis_conn := HealthCheck.Conn.ok } = true ∧
    hc.check_rabbitmq { w with rabbitmq_conn := HealthCheck.Conn.ok }
      = true ∧
    (HealthCheck.readiness_check hc w).2.body.checks.map Prod.fst
      = ["service", "database", "redis", "rabbitmq"] ∧
    ((HealthCheck.readiness_check hc w).2.status_code = 200 ∨
     (HealthCheck.readiness_check hc w).2.status_code = 503) := by
  refine ⟨rfl, rfl, rfl, rfl, rfl, rfl, rfl, ?_⟩
  cases h : (hc.get_readiness_status w).ready
  · exact Or.inr (by simp [HealthCheck.readiness_check, h])
  · exact Or.inl (by simp [HealthCheck.readiness_check, h])

/-- C5 counterexample: in the post-startup state with database and cache
reachable and the broker connection raising, the `checks` dict of the
readiness body does NOT carry the keys `service, database, cache,
broker` — the code emits `redis` and `rabbitmq`, not `cache` and
`broker`. -/
theorem readiness_checks_keys_cex :
    ¬ ((HealthCheck.readiness_check
          (HealthCheck.startup_event HealthCheck.defaultHC)
          HealthCheck.brokerDownWorld).2.body.checks.map Prod.fst
        = ["service", "database", "cache", "broker"]) := by
  decide

/-- C5 amended: in any state where startup has completed and the database
and cache (redis) probes succeed but the broker (rabbitmq) probe fails,
`GET /health/ready` returns 503 with `ready = false` and checks
`{service: true, database: true, redis: true, rabbitmq: false}` — the
four keys are `service, database, redis, rabbitmq`. -/
theorem readiness_broker_down (hc : HealthCheck.HealthChecker)
    (w : HealthCheck.World) (e : String)
    (hready : hc.is_ready = true)
    (hdb : w.db_conn = HealthCheck.Conn.ok)
    (hrd : w.redis_conn = HealthCheck.Conn.ok)
    (hq : w.rabbitmq_conn = HealthCheck.Conn.err e) :
    (HealthCheck.readiness_check hc w).2.status_code = 503 ∧
    (HealthCheck.readiness_check hc w).2.body.ready = false ∧
    (HealthCheck.readiness_check hc w).2.body.checks =
      [("service", true), ("database", true),
       ("redis", true), ("rabbitmq", false)] := by
  simp [HealthCheck.readiness_check,
    HealthCheck.HealthChecker.get_readiness_status,
    HealthCheck.HealthChecker.check_database,
    HealthCheck.HealthChecker.check_redis,
    HealthCheck.HealthChecker.check_rabbitmq, hready, hdb, hrd, hq]

/-- Witness for the amended C5 at the concrete post-startup checker and
the concrete broker-down world. -/
theorem readiness_broker_down_witness :
    (HealthCheck.readiness_check
        (HealthCheck.startup_event HealthCheck.defaultHC)
        HealthCheck.brokerDownWorld).2.status_code = 503 ∧
    (HealthCheck.readiness_check
        (HealthCheck.startup_event HealthCheck.defaultHC)
        HealthCheck.brokerDownWorld).2.body.ready = false ∧
    (HealthCheck.readiness_check
        (HealthCheck.startup_event HealthCheck.defaultHC)
        HealthCheck.brokerDownWorld).2.body.checks =
      [("service", true), ("database", true),
       ("redis", true), ("rabbitmq", false)] :=
  readiness_broker_down (HealthCheck.startup_event HealthCheck.defaultHC)
    HealthCheck.brokerDownWorld "AMQPConnectionError" rfl rfl rfl rfl

/-- C6: for every checker state and world, `GET /health/live` answers 200
with body `{status: "alive", service, timestamp}`; the body is equal to
an expression built from the service name and the clock alone, so the
result does not depend on `is_ready`, on any connection outcome, or on
any other state — in both the shared module and the
intelligent-core-service module. -/
theorem liveness_always_alive (hc : HealthCheck.HealthChecker)
    (s : ICS.ModState) (w : HealthCheck.World) :
    (HealthCheck.liveness_check hc w).2.status_code = 200 ∧
    (HealthCheck.liveness_check hc w).2.body =
      { status := "alive", service := hc.service_name
        timestamp := w.now } ∧
    (ICS.liveness_check s w).2.status_code = 200 ∧
    (ICS.liveness_check s w).2.body =
      { status := "alive", service := ICS.SERVICE_NAME
        timestamp := w.now } :=
  ⟨rfl, rfl, rfl, rfl⟩

/-- C7: `uptime_seconds` equals the clock reading minus the immutable
startup time, hence is non-negative whenever the clock is at or past the
startup instant, and is monotone across two calls whose clock readings
are ordered — for both health-check modules. -/
theorem uptime_nonneg_monotone (hc : HealthCheck.HealthChecker)
    (s : ICS.ModState) (w1 w2 : HealthCheck.World)
    (h0 : hc.startup_time ≤ w1.now) (h0s : s.startup_time ≤ w1.now)
    (h12 : w1.now ≤ w2.now) :
    (HealthCheck.health_check hc w1).2.body.uptime_seconds
      = w1.now - hc.startup_time ∧
    0 ≤ (HealthCheck.health_check hc w1).2.body.uptime_seconds ∧
    (HealthCheck.health_check hc w1).2.body.uptime_seconds
      ≤ (HealthCheck.health_check hc w2).2.body.uptime_seconds ∧
    (ICS.health_check s w1).2.body.uptime_seconds
      = w1.now - s.startup_time ∧
    0 ≤ (ICS.health_check s w1).2.body.uptime_seconds ∧
    (ICS.health_check s w1).2.body.uptime_seconds
      ≤ (ICS.health_check s w2).2.body.uptime_seconds := by
  have h1 : (HealthCheck.health_check hc w1).2.body.uptime_seconds
      = w1.now - hc.startup_time := rfl
  have h2 : (HealthCheck.health_check hc w2).2.body.uptime_seconds
      = w2.now - hc.startup_time := rfl
  have h3 : (ICS.health_check s w1).2.body.uptime_seconds
      = w1.now - s.startup_time := rfl
  have h4 : (ICS.health_check s w2).2.body.uptime_seconds
      = w2.now - s.startup_time := rfl
  exact ⟨h1, by rw [h1]; omega, by rw [h1, h2]; omega,
    h3, by rw [h3]; omega, by rw [h3, h4]; omega⟩

/-- Witness for C7 at a concrete checker, module state and two ordered
worlds. -/
theorem uptime_nonneg_monotone_witness :
    (HealthCheck.health_check HealthCheck.defaultHC
        HealthCheck.allOkWorld).2.body.uptime_seconds
      = HealthCheck.allOkWorld.now - HealthCheck.defaultHC.startup_time ∧
    0 ≤ (HealthCheck.health_check HealthCheck.defaultHC
        HealthCheck.allOkWorld).2.body.uptime_seconds ∧
    (HealthCheck.health_check HealthCheck.defaultHC
        HealthCheck.allOkWorld).2.body.uptime_seconds
      ≤ (HealthCheck.health_check HealthCheck.defaultHC
          HealthCheck.brokerDownWorld).2.body.uptime_seconds ∧
    (ICS.health_check (ICS.ModState.init 0)
        HealthCheck.allOkWorld).2.body.uptime_seconds
      = HealthCheck.allOkWorld.now - (ICS.ModState.init 0).startup_time ∧
    0 ≤ (ICS.health_check (ICS.ModState.init 0)
        HealthCheck.allOkWorld).2.body.uptime_seconds ∧
    (ICS.health_check (ICS.ModState.init 0)
        HealthCheck.allOkWorld).2.body.uptime_seconds
      ≤ (ICS.health_check (ICS.ModState.init 0)
          HealthCheck.brokerDownWorld).2.body.uptime_seconds :=
  uptime_nonneg_monotone HealthCheck.defaultHC (ICS.ModState.init 0)
    HealthCheck.allOkWorld HealthCheck.brokerDownWorld
    (by decide) (by decide) (by decide)

/-- C8: no request handler (health, liveness, readiness, root) changes
any component state — the checker (and, in the intelligent-core-service,
the module state) returned by every handler is the state it received —
and the startup event changes exactly `is_ready`, leaving every other
field as it was. -/
theorem handlers_frame (hc : HealthCheck.HealthChecker)
    (s : ICS.ModState) (w : HealthCheck.World) (op : HealthCheck.Op) :
    HealthCheck.runOp hc op w = hc ∧
    (HealthCheck.health_check hc w).1 = hc ∧
    (HealthCheck.liveness_check hc w).1 = hc ∧
    (HealthCheck.readiness_check hc w).1 = hc ∧
    (HealthCheck.root hc w).1 = hc ∧
    HealthCheck.startup_event hc = { hc with is_ready := true } ∧
    (ICS.health_check s w).1 = s ∧
    (ICS.liveness_check s w).1 = s ∧
    (ICS.readiness_check s w).1 = s :=
  ⟨HealthCheck.runOp_eq hc op w, rfl, rfl, rfl, rfl, rfl, rfl, rfl, rfl⟩

/-- C9: construction with an empty environment succeeds and uses the
documented defaults (service port 8000, PostgreSQL localhost:5432, Redis
localhost:6379, RabbitMQ localhost:5672 with vhost "/"); setting any one
of the four port variables to a string that does not parse as an integer
makes construction fail; and whenever every present port variable parses,
construction succeeds — integer parsing of the ports is the only
validation. -/
theorem init_defaults_and_port_validation (name ver : String) (now : Int)
    (s : String) (hbad : HealthCheck.pyInt? s = none) :
    (∃ hc, HealthCheck.HealthChecker.init name ver HealthCheck.emptyEnv now
        = some hc ∧
      hc.is_ready = false ∧
      hc.service_port = 8000 ∧
      hc.postgres_config.host = "localhost" ∧
      hc.postgres_config.port = 5432 ∧
      hc.redis_config.host = "localhost" ∧
      hc.redis_config.port = 6379 ∧
      hc.rabbitmq_config.host = "localhost" ∧
      hc.rabbitmq_config.port = 5672 ∧
      hc.rabbitmq_config.virtual_host = "/") ∧
    HealthCheck.HealthChecker.init name ver
      (HealthCheck.envWith "SERVICE_PORT" s) now = none ∧
    HealthCheck.HealthChecker.init name ver
      (HealthCheck.envWith "POSTGRES_PORT" s) now = none ∧
    HealthCheck.HealthChecker.init name ver
      (HealthCheck.envWith "REDIS_PORT" s) now = none ∧
    HealthCheck.HealthChecker.init name ver
      (HealthCheck.envWith "RABBITMQ_PORT" s) now = none ∧
    (∀ env : HealthCheck.Env,
      (HealthCheck.getenvInt env "SERVICE_PORT" 8000).isSome = true →
      (HealthCheck.getenvInt env "POSTGRES_PORT" 5432).isSome = true →
      (HealthCheck.getenvInt env "REDIS_PORT" 6379).isSome = true →
      (HealthCheck.getenvInt env "RABBITMQ_PORT" 5672).isSome = true →
      (HealthCheck.HealthChecker.init name ver env now).isSome = true) := by
  refine ⟨⟨_, rfl, rfl, rfl, rfl, rfl, rfl, rfl, rfl, rfl, rfl⟩,
    ?_, ?_, ?_, ?_, ?_⟩
  · simp [HealthCheck.HealthChecker.init, HealthCheck.getenvInt,
      HealthCheck.envWith, hbad]
  · simp [HealthCheck.HealthChecker.init, HealthCheck.getenvInt,
      HealthCheck.envWith, hbad]
  · simp [HealthCheck.HealthChecker.init, HealthCheck.getenvInt,
      HealthCheck.envWith, hbad]
  · simp [HealthCheck.HealthChecker.init, HealthCheck.getenvInt,
      HealthCheck.envWith, hbad]
  · intro env h1 h2 h3 h4
    rcases Option.isSome_iff_exists.mp h1 with ⟨a1, ha1⟩
    rcases Option.isSome_iff_exists.mp h2 with ⟨a2, ha2⟩
    rcases Option.isSome_iff_exists.mp h3 with ⟨a3, ha3⟩
    rcases Option.isSome_iff_exists.mp h4 with ⟨a4, ha4⟩
    simp [HealthCheck.HealthChecker.init, ha1, ha2, ha3, ha4]

/-- Witness for C9: the default construction succeeds with port 8000 and
a non-integer `SERVICE_PORT` makes construction fail. -/
theorem init_defaults_and_port_validation_witness :
    HealthCheck.HealthChecker.init "svc" "1.0.0"
      (HealthCheck.envWith "SERVICE_PORT" "not-a-number") 0 = none ∧
    (HealthCheck.HealthChecker.init "svc" "1.0.0"
      HealthCheck.emptyEnv 0).isSome = true :=
  ⟨(init_defaults_and_port_validation "svc" "1.0.0" 0 "not-a-number"
      (by decide)).2.1,
   (init_defaults_and_port_validation "svc" "1.0.0" 0 "not-a-number"
      (by decide)).2.2.2.2.2 HealthCheck.emptyEnv rfl rfl rfl rfl⟩

/-- C10: in the intelligent-core-service module the three dependency
check functions return `true` for every world (they consult nothing), so
the readiness body's `ready` field equals `is_ready` alone, the `checks`
breakdown never reports a failure, and after startup the readiness
endpoint answers 200 whatever the actual reachability of the
dependencies. -/
theorem ics_checks_stubbed (s : ICS.ModState) (w : HealthCheck.World) :
    ICS.check_database_connection w = true ∧
    ICS.check_redis_connection w = true ∧
    ICS.check_rabbitmq_connection w = true ∧
    (ICS.readiness_check s w).2.body.ready = s.is_ready ∧
    (ICS.readiness_check s w).2.body.checks =
      [("database", true), ("redis", true), ("rabbitmq", true)] ∧
    ((ICS.readiness_check s w).2.status_code =
      if s.is_ready then 200 else 503) ∧
    (ICS.readiness_check (ICS.startup_event s) w).2.status_code = 200 := by
  cases hs : s.is_ready <;>
    simp [ICS.readiness_check, ICS.startup_event,
      ICS.check_database_connection, ICS.check_redis_connection,
      ICS.check_rabbitmq_connection, hs]
